import Mathlib

/-!
Shallow embedding of `src/server.js` (todo-api): an Express server with JWT
bearer authentication, an in-memory revocation list (`invalidatedTokens`),
and mongoose-backed todo CRUD scoped to the authenticated user.

Modelling conventions:
* Machine state is `ServerState` (users, todos, invalidatedTokens); each
  route handler is a pure function from state and request data to a
  `Response` (and possibly a new state).
* A JWT is modelled as a payload plus a signature value; the opaque token
  string of the code is `TokenStr` (either a well-formed token or an
  arbitrary malformed string).  String equality on tokens (used by
  `Array.includes` in the code) is modelled by decidable equality of
  `TokenStr`, relying on the injectivity of JWT encoding.
* The system clock is an explicit `now : Nat` parameter (seconds).
* MongoDB / mongoose behaviour that the handlers delegate to (queries,
  schema defaults and validation) is modelled where used, with doc
  comments stating what is being modelled.
-/

/-- JWT payload as produced by `jwt.sign({ userId: user._id }, secretKey,
{ expiresIn: "1h" })`: the user id plus issued-at and expiry timestamps. -/
structure TokenPayload where
  userId : String
  iat : Nat
  exp : Nat
deriving DecidableEq

/-- A well-formed signed token: payload plus signature over the payload. -/
structure Token where
  payload : TokenPayload
  sig : Nat
deriving DecidableEq

/-- An opaque token string: either the encoding of a well-formed token or
some other (malformed) string that `jwt.verify` cannot decode. -/
inductive TokenStr where
  | malformed (s : String)
  | wellFormed (t : Token)
deriving DecidableEq

/-- The hardcoded signing secret of server.js line 15. -/
def secretKey : String := "Hello123"

/-- A concrete stand-in hash used to model the HMAC signature; only its
computability matters, no cryptographic property is used. -/
def strHash (s : String) : Nat :=
  s.toList.foldl (fun a c => a * 131 + c.toNat) 5381

/-- Model of the HMAC over the payload with the signing key. -/
def mac (key : String) (p : TokenPayload) : Nat :=
  strHash key * 1000003 + strHash p.userId * 31 + p.iat * 17 + p.exp

/-- Model of `jwt.sign(payload, key)`. -/
def jwtSign (key : String) (p : TokenPayload) : Token :=
  { payload := p, sig := mac key p }

inductive JwtError where
  | signatureInvalid
  | expired
deriving DecidableEq

/-- Model of `jwt.verify(token, key, cb)` on a structurally well-formed
token: the signature is checked first, then the `exp` claim
(jsonwebtoken reports expiry when the clock is at or past `exp`). -/
def jwtVerify (key : String) (now : Nat) (t : Token) : Except JwtError TokenPayload :=
  if t.sig ≠ mac key t.payload then .error .signatureInvalid
  else if now ≥ t.payload.exp then .error .expired
  else .ok t.payload

/-- The `authorization` header as seen by `authenticateToken`:
absent, present but without a second space-separated segment
(`authHeader.split(" ")[1]` falsy), or carrying a token string. -/
inductive AuthHeader where
  | absent
  | noToken
  | withToken (t : TokenStr)
deriving DecidableEq

/-- A task record (`todoSchema`, server.js lines 21-28). -/
structure TodoRec where
  _id : String
  userId : String
  title : String
  description : String
  status : String
  createdAt : Nat
  updatedAt : Nat
deriving DecidableEq

/-- A user record (`userSchema`, server.js lines 33-36). -/
structure UserRec where
  _id : String
  username : String
  password : String
deriving DecidableEq

/-- Process-wide server state: the two mongo collections and the
in-memory blacklist array `invalidatedTokens` (server.js line 41). -/
structure ServerState where
  users : List UserRec
  todos : List TodoRec
  invalidatedTokens : List TokenStr
deriving DecidableEq

/-- Outward HTTP responses of the handlers, with their status codes. -/
inductive Response where
  | err (code : Nat) (msg : String)
  | msgOk (msg : String)
  | loginOk (msg : String) (token : TokenStr)
  | todoList (l : List TodoRec)
  | todoOne (r : TodoRec)
  | created (r : TodoRec)
  | userCreated (u : UserRec)
deriving DecidableEq

/-- Middleware `authenticateToken` (server.js lines 44-63): missing token
→ 401 Unauthorized; blacklisted token → 401 invalidated (checked before
`jwt.verify`); any `jwt.verify` failure (malformed, bad signature,
expired) → 403 Forbidden; otherwise the payload's userId is attached to
the request. -/
def authenticateToken (invalid : List TokenStr) (now : Nat) (h : AuthHeader) :
    Except Response String :=
  match h with
  | .absent => .error (.err 401 "Unauthorized")
  | .noToken => .error (.err 401 "Unauthorized")
  | .withToken t =>
    if t ∈ invalid then .error (.err 401 "Token has been invalidated")
    else
      match t with
      | .malformed _ => .error (.err 403 "Forbidden")
      | .wellFormed tok =>
        match jwtVerify secretKey now tok with
        | .error _ => .error (.err 403 "Forbidden")
        | .ok p => .ok p.userId

/-- JS truthiness of an optional string field: `undefined` and `""` are
falsy (`if (title)`, `if (!title || !description)`, `if (status)`). -/
def truthy : Option String → Option String
  | some s => if s.isEmpty then none else some s
  | none => none

/-- Query string of `GET /todos`.  The handler destructures only
`title`, `description`, `status`; a caller-supplied `userId` query field
is representable here but never read. -/
structure TodosQuery where
  title : Option String
  description : Option String
  status : Option String
  userId : Option String
deriving DecidableEq

/-- The mongo filter built by `GET /todos` (server.js lines 87-97):
always `{ userId: req.user.userId }`, plus `$regex`/`$options:"i"` terms
for truthy `title`/`description` and an equality term for truthy
`status`. -/
structure TodoFilter where
  userId : String
  title : Option String
  description : Option String
  status : Option String
deriving DecidableEq

def buildFilter (uid : String) (q : TodosQuery) : TodoFilter :=
  { userId := uid
  , title := truthy q.title
  , description := truthy q.description
  , status := truthy q.status }

/-- Boolean check that `pat` is a prefix of `s` (over characters). -/
def isPrefOf : List Char → List Char → Bool
  | [], _ => true
  | _ :: _, [] => false
  | a :: as, b :: bs => a == b && isPrefOf as bs

/-- Boolean check that `pat` occurs as a contiguous sublist of `s`. -/
def containsSub (pat : List Char) : List Char → Bool
  | [] => pat.isEmpty
  | b :: bs => isPrefOf pat (b :: bs) || containsSub pat bs

/-- Modelled from the spec: MongoDB evaluation of a
`{ $regex: pat, $options: "i" }` term (the store is external to src/) as
case-insensitive substring containment, per spec §4.4. -/
def ciMatch (pat s : String) : Bool :=
  containsSub (pat.toList.map Char.toLower) (s.toList.map Char.toLower)

/-- Modelled from the spec: MongoDB evaluation of the filter built by
`GET /todos` against a record — all present terms AND together, regex
terms as case-insensitive substring, `status` as exact equality. -/
def matchesFilter (f : TodoFilter) (r : TodoRec) : Bool :=
  r.userId == f.userId
  && (match f.title with | some p => ciMatch p r.title | none => true)
  && (match f.description with | some p => ciMatch p r.description | none => true)
  && (match f.status with | some s => r.status == s | none => true)

/-- Body of `POST /todos` and `PUT /todos/:id`. -/
structure TodoBody where
  title : Option String
  description : Option String
  status : Option String
deriving DecidableEq

/-- The enum of `todoSchema.status`. -/
def statusEnum : List String := ["pending", "completed"]

/-- Modelled from mongoose semantics of `Todo.create` under the schema of
server.js lines 21-28: an absent `status` takes the default `"pending"`;
a present value must lie in the enum, otherwise creation fails with a
validation error; `createdAt`/`updatedAt` default to now. -/
def todoCreate (newId uid : String) (b : TodoBody) (now : Nat) :
    Except String TodoRec :=
  match b.status with
  | none =>
    .ok { _id := newId, userId := uid, title := b.title.getD "",
          description := b.description.getD "", status := "pending",
          createdAt := now, updatedAt := now }
  | some s =>
    if s ∈ statusEnum then
      .ok { _id := newId, userId := uid, title := b.title.getD "",
            description := b.description.getD "", status := s,
            createdAt := now, updatedAt := now }
    else .error "Todo validation failed: status is not a valid enum value"

/-- Modelled from mongoose semantics of `findOneAndUpdate` with update
document `{ title, description, status, updatedAt: Date.now() }`:
`undefined` fields are stripped from the update, defined fields are set
as given, and no schema validators run (mongoose update validators are
off by default, so the status enum is NOT enforced here). -/
def applyPut (now : Nat) (b : TodoBody) (r : TodoRec) : TodoRec :=
  { r with
    title := b.title.getD r.title
    description := b.description.getD r.description
    status := b.status.getD r.status
    updatedAt := now }

/-- Replace the first record satisfying `p` (mongo updates one document). -/
def updateFirst (p : TodoRec → Bool) (f : TodoRec → TodoRec) :
    List TodoRec → List TodoRec
  | [] => []
  | r :: rs => if p r then f r :: rs else r :: updateFirst p f rs

/-- Remove the first record satisfying `p` (mongo deletes one document). -/
def removeFirst (p : TodoRec → Bool) : List TodoRec → List TodoRec
  | [] => []
  | r :: rs => if p r then rs else r :: removeFirst p rs

/-- `POST /login` (server.js lines 120-134): `User.findOne({ username,
password })`; no match → 401 "Invalid credentials"; match → signed token
with a 1-hour expiry. -/
def loginHandler (st : ServerState) (now : Nat) (username password : String) :
    Response :=
  match st.users.find? (fun u => u.username == username && u.password == password) with
  | none => .err 401 "Invalid credentials"
  | some u =>
    .loginOk "Login successful"
      (.wellFormed (jwtSign secretKey { userId := u._id, iat := now, exp := now + 3600 }))

/-- `POST /signup` (server.js lines 107-117): the unique index on
`username` makes creation of a duplicate username fail. -/
def signupHandler (st : ServerState) (username password newId : String) :
    Response × ServerState :=
  if st.users.any (fun u => u.username == username) then
    (.err 400 "E11000 duplicate key error collection: users index: username", st)
  else
    let u : UserRec := { _id := newId, username := username, password := password }
    (.userCreated u, { st with users := st.users ++ [u] })

/-- `POST /logout` (server.js lines 137-141): gated by
`authenticateToken`; on success pushes the token onto
`invalidatedTokens` and acknowledges.  (After a successful gate the
header necessarily carries a token; the other branches are dead.) -/
def logoutHandler (st : ServerState) (now : Nat) (h : AuthHeader) :
    Response × ServerState :=
  match authenticateToken st.invalidatedTokens now h with
  | .error r => (r, st)
  | .ok _ =>
    match h with
    | .withToken t =>
      (.msgOk "Logout successful",
        { st with invalidatedTokens := st.invalidatedTokens ++ [t] })
    | _ => (.msgOk "Logout successful", st)

/-- `GET /todos` (server.js lines 84-104): build the filter from the
authenticated userId and the truthy query terms, return the matching
records. -/
def getTodosHandler (st : ServerState) (now : Nat) (h : AuthHeader)
    (q : TodosQuery) : Response :=
  match authenticateToken st.invalidatedTokens now h with
  | .error r => r
  | .ok uid => .todoList (st.todos.filter (matchesFilter (buildFilter uid q)))

/-- `POST /todos` (server.js lines 144-167): reject falsy title or
description, reject a truthy status outside the enum, then
`Todo.create` with the authenticated userId. -/
def postTodosHandler (st : ServerState) (now : Nat) (h : AuthHeader)
    (b : TodoBody) (newId : String) : Response × ServerState :=
  match authenticateToken st.invalidatedTokens now h with
  | .error r => (r, st)
  | .ok uid =>
    if (truthy b.title).isNone || (truthy b.description).isNone then
      (.err 400 "Title and description are required", st)
    else if (match truthy b.status with
             | some s => decide (s ∉ statusEnum)
             | none => false) then
      (.err 400 "Invalid status", st)
    else
      match todoCreate newId uid b now with
      | .ok r => (.created r, { st with todos := st.todos ++ [r] })
      | .error m => (.err 400 m, st)

/-- `GET /todos/:id` (server.js lines 175-186): `findOne({ _id: id,
userId: req.user.userId })`; miss → 404. -/
def getTodoHandler (st : ServerState) (now : Nat) (h : AuthHeader)
    (id : String) : Response :=
  match authenticateToken st.invalidatedTokens now h with
  | .error r => r
  | .ok uid =>
    match st.todos.find? (fun r => r._id == id && r.userId == uid) with
    | none => .err 404 "Todo not found"
    | some r => .todoOne r

/-- `PUT /todos/:id` (server.js lines 188-204): `findOneAndUpdate` with
the ownership-scoped id filter and `{ new: true }`; miss → 404. -/
def putTodoHandler (st : ServerState) (now : Nat) (h : AuthHeader)
    (id : String) (b : TodoBody) : Response × ServerState :=
  match authenticateToken st.invalidatedTokens now h with
  | .error r => (r, st)
  | .ok uid =>
    match st.todos.find? (fun r => r._id == id && r.userId == uid) with
    | none => (.err 404 "Todo not found", st)
    | some r =>
      (.todoOne (applyPut now b r),
        { st with todos := updateFirst (fun r => r._id == id && r.userId == uid)
                             (applyPut now b) st.todos })

/-- `DELETE /todos/:id` (server.js lines 206-220): `findOneAndDelete`
with the ownership-scoped id filter; miss → 404. -/
def deleteTodoHandler (st : ServerState) (now : Nat) (h : AuthHeader)
    (id : String) : Response × ServerState :=
  match authenticateToken st.invalidatedTokens now h with
  | .error r => (r, st)
  | .ok uid =>
    match st.todos.find? (fun r => r._id == id && r.userId == uid) with
    | none => (.err 404 "Todo not found", st)
    | some _ =>
      (.msgOk "Todo deleted successfully",
        { st with todos := removeFirst (fun r => r._id == id && r.userId == uid) st.todos })

/-- One inbound request (id parameters for records created server-side
are passed explicitly). -/
inductive Request where
  | login (username password : String)
  | signup (username password newId : String)
  | logout (h : AuthHeader)
  | listTodos (h : AuthHeader) (q : TodosQuery)
  | createTodo (h : AuthHeader) (b : TodoBody) (newId : String)
  | getTodo (h : AuthHeader) (id : String)
  | updateTodo (h : AuthHeader) (id : String) (b : TodoBody)
  | deleteTodo (h : AuthHeader) (id : String)
deriving DecidableEq

/-- Dispatch of one request against the server state. -/
def step (st : ServerState) (now : Nat) : Request → Response × ServerState
  | .login u p => (loginHandler st now u p, st)
  | .signup u p i => signupHandler st u p i
  | .logout h => logoutHandler st now h
  | .listTodos h q => (getTodosHandler st now h q, st)
  | .createTodo h b i => postTodosHandler st now h b i
  | .getTodo h i => (getTodoHandler st now h i, st)
  | .updateTodo h i b => putTodoHandler st now h i b
  | .deleteTodo h i => deleteTodoHandler st now h i

/-- Run a sequence of timestamped requests, keeping only the final state. -/
def applyAll (st : ServerState) : List (Nat × Request) → ServerState
  | [] => st
  | (now, r) :: rest => applyAll (step st now r).2 rest

/-! ### Concrete fixtures used by witnesses -/

def payload0 : TokenPayload := { userId := "u1", iat := 0, exp := 3600 }

def tok0 : TokenStr := .wellFormed (jwtSign secretKey payload0)

def st0 : ServerState := { users := [], todos := [], invalidatedTokens := [] }

/-! ### C2: outward error mapping of authenticateToken -/

/-- C2: the internal authentication reasons map to exactly two outward
classes: a missing token and a revoked token each yield status 401
(Unauthorized), while a malformed token, an invalid signature, and an
expired token each yield status 403 (Forbidden). -/
theorem auth_error_mapping (invalid : List TokenStr) (now : Nat) :
    (authenticateToken invalid now .absent = .error (.err 401 "Unauthorized"))
    ∧ (authenticateToken invalid now .noToken = .error (.err 401 "Unauthorized"))
    ∧ (∀ t : TokenStr, t ∈ invalid →
        authenticateToken invalid now (.withToken t)
          = .error (.err 401 "Token has been invalidated"))
    ∧ (∀ s : String, TokenStr.malformed s ∉ invalid →
        authenticateToken invalid now (.withToken (.malformed s))
          = .error (.err 403 "Forbidden"))
    ∧ (∀ tok : Token, TokenStr.wellFormed tok ∉ invalid →
        tok.sig ≠ mac secretKey tok.payload →
        authenticateToken invalid now (.withToken (.wellFormed tok))
          = .error (.err 403 "Forbidden"))
    ∧ (∀ tok : Token, TokenStr.wellFormed tok ∉ invalid →
        tok.sig = mac secretKey tok.payload → now ≥ tok.payload.exp →
        authenticateToken invalid now (.withToken (.wellFormed tok))
          = .error (.err 403 "Forbidden")) := by
  refine ⟨rfl, rfl, ?_, ?_, ?_, ?_⟩ <;>
    intros <;> simp [authenticateToken, jwtVerify, *]

/-- Witness for C2 at concrete inputs: a blacklisted token, a malformed
token, a wrong-signature token and an expired token each get the mapped
status. -/
theorem auth_error_mapping_witness :
    (authenticateToken [tok0] 5 (.withToken tok0)
      = .error (.err 401 "Token has been invalidated"))
    ∧ (authenticateToken [] 5 (.withToken (.malformed "zz"))
      = .error (.err 403 "Forbidden"))
    ∧ (authenticateToken [] 5
        (.withToken (.wellFormed { payload := payload0, sig := 7 }))
      = .error (.err 403 "Forbidden"))
    ∧ (authenticateToken [] 3600 (.withToken (.wellFormed (jwtSign secretKey payload0)))
      = .error (.err 403 "Forbidden")) :=
  ⟨(auth_error_mapping [tok0] 5).2.2.1 tok0 (by decide),
   (auth_error_mapping [] 5).2.2.2.1 "zz" (by decide),
   (auth_error_mapping [] 5).2.2.2.2.1 { payload := payload0, sig := 7 } (by decide)
     (by decide),
   (auth_error_mapping [] 3600).2.2.2.2.2 (jwtSign secretKey payload0) (by decide)
     (by decide) (by decide)⟩

/-! ### C4: issue-then-verify round trip -/

/-- C4: issuing a token for principal `p` (as `POST /login` does) and
immediately verifying it — token not revoked, clock within the expiry
window — succeeds and yields exactly `p`. -/
theorem issue_verify_roundtrip (p : String) (now now2 : Nat)
    (invalid : List TokenStr)
    (hrev : TokenStr.wellFormed
      (jwtSign secretKey { userId := p, iat := now, exp := now + 3600 }) ∉ invalid)
    (hexp : now2 < now + 3600) :
    authenticateToken invalid now2
      (.withToken (.wellFormed
        (jwtSign secretKey { userId := p, iat := now, exp := now + 3600 })))
      = .ok p := by
  have hv : jwtVerify secretKey now2
      (jwtSign secretKey { userId := p, iat := now, exp := now + 3600 })
      = .ok { userId := p, iat := now, exp := now + 3600 } := by
    unfold jwtVerify jwtSign
    simp
    exact hexp
  simp [authenticateToken, hrev, hv]

/-- Witness for C4: a token issued at time 0 for `"u1"` verifies at time
100 to `"u1"`. -/
theorem issue_verify_roundtrip_witness :
    authenticateToken [] 100
      (.withToken (.wellFormed
        (jwtSign secretKey { userId := "u1", iat := 0, exp := 0 + 3600 })))
      = .ok "u1" :=
  issue_verify_roundtrip "u1" 0 100 [] (by decide) (by decide)

/-! ### C1: revocation is checked first and is permanent -/

/-- Every outward error of `authenticateToken` is an `err`-shaped
response (auxiliary). -/
theorem auth_error_is_err (invalid : List TokenStr) (now : Nat) (h : AuthHeader)
    (r : Response) (he : authenticateToken invalid now h = .error r) :
    ∃ c m, r = Response.err c m := by
  cases h <;> simp only [authenticateToken] at he <;> (repeat' split at he) <;>
    simp_all <;> exact ⟨_, _, he.symm⟩

/-- No request handler ever removes an entry from `invalidatedTokens`:
one dispatch step preserves membership (auxiliary). -/
theorem invalidated_mono_step (st : ServerState) (now : Nat) (r : Request)
    (t : TokenStr) (h : t ∈ st.invalidatedTokens) :
    t ∈ (step st now r).2.invalidatedTokens := by
  cases r <;>
    simp only [step, signupHandler, logoutHandler, postTodosHandler,
      putTodoHandler, deleteTodoHandler] <;>
    (repeat' split) <;> simp_all [List.mem_append]

/-- Membership in `invalidatedTokens` survives any request sequence
(auxiliary). -/
theorem invalidated_mono_applyAll (reqs : List (Nat × Request)) :
    ∀ st : ServerState, ∀ t ∈ st.invalidatedTokens,
      t ∈ (applyAll st reqs).invalidatedTokens := by
  induction reqs with
  | nil => intro st t h; exact h
  | cons hd tl ih =>
    intro st t h
    exact ih _ t (invalidated_mono_step st hd.1 hd.2 t h)

/-- A logout acknowledged with "Logout successful" has pushed its token
onto the blacklist (auxiliary). -/
theorem logout_ok_mem (st : ServerState) (now : Nat) (t : TokenStr)
    (hlogout : (logoutHandler st now (.withToken t)).1 = .msgOk "Logout successful") :
    t ∈ (logoutHandler st now (.withToken t)).2.invalidatedTokens := by
  cases hh : authenticateToken st.invalidatedTokens now (.withToken t) with
  | error r =>
    obtain ⟨c, m, rfl⟩ := auth_error_is_err _ _ _ _ hh
    simp [logoutHandler, hh] at hlogout
  | ok uid => simp [logoutHandler, hh, List.mem_append]

/-- C1: once `POST /logout` for token `t` has completed successfully,
every subsequent `authenticateToken` on `t` — after any sequence of
further requests, at any later clock value, hence regardless of the
token's remaining time-to-expiry or signature validity — is rejected
with the 401 blacklist error: the membership check precedes
`jwt.verify` and no operation ever removes blacklist entries. -/
theorem revoked_rejected_forever (st : ServerState) (now : Nat) (t : TokenStr)
    (hlogout : (logoutHandler st now (.withToken t)).1 = .msgOk "Logout successful")
    (reqs : List (Nat × Request)) (now2 : Nat) :
    authenticateToken
        (applyAll (logoutHandler st now (.withToken t)).2 reqs).invalidatedTokens
        now2 (.withToken t)
      = .error (.err 401 "Token has been invalidated") := by
  have hmem2 := invalidated_mono_applyAll reqs _ t (logout_ok_mem st now t hlogout)
  simp [authenticateToken, hmem2]

/-- Witness for C1: logging out `tok0` from the empty state succeeds,
and after a further request its verification still fails with 401 even
at a clock far past its expiry. -/
theorem revoked_rejected_forever_witness :
    authenticateToken
        (applyAll (logoutHandler st0 0 (.withToken tok0)).2
          [(10, .login "alice" "pw")]).invalidatedTokens
        999999 (.withToken tok0)
      = .error (.err 401 "Token has been invalidated") :=
  revoked_rejected_forever st0 0 tok0 (by decide) [(10, .login "alice" "pw")] 999999

/-! ### C9: idempotence of revocation -/

/-- C9 counterexample: from the empty state, logging out `tok0` succeeds,
but a second logout with the same (now already-revoked) token is
rejected with a 401 error rather than acknowledged — so revoking an
already-revoked token IS an outward error, refuting the claim as
stated. -/
theorem double_revoke_is_error_cex :
    ((logoutHandler st0 0 (.withToken tok0)).1 = .msgOk "Logout successful")
    ∧ ((logoutHandler (logoutHandler st0 0 (.withToken tok0)).2 1 (.withToken tok0)).1
        = .err 401 "Token has been invalidated")
    ∧ ((logoutHandler (logoutHandler st0 0 (.withToken tok0)).2 1 (.withToken tok0)).1
        ≠ .msgOk "Logout successful") := by decide

/-- C9 (amended): revocation is idempotent at the state level — a second
logout of an already-revoked token leaves the server state (hence the
responses of all later verify/revoke calls) exactly as after the first
logout; its own response, however, is the 401 blacklist error, not a
success acknowledgment. -/
theorem revoke_idempotent_state (st : ServerState) (now now2 : Nat) (t : TokenStr)
    (h1 : (logoutHandler st now (.withToken t)).1 = .msgOk "Logout successful") :
    logoutHandler (logoutHandler st now (.withToken t)).2 now2 (.withToken t)
      = (.err 401 "Token has been invalidated",
          (logoutHandler st now (.withToken t)).2) := by
  have hmem := logout_ok_mem st now t h1
  generalize (logoutHandler st now (.withToken t)).2 = st1 at hmem ⊢
  simp [logoutHandler, authenticateToken, hmem]

/-- Witness for C9 (amended) at the concrete first-logout-succeeds
state. -/
theorem revoke_idempotent_state_witness :
    logoutHandler (logoutHandler st0 0 (.withToken tok0)).2 1 (.withToken tok0)
      = (.err 401 "Token has been invalidated",
          (logoutHandler st0 0 (.withToken tok0)).2) :=
  revoke_idempotent_state st0 0 1 tok0 (by decide)

/-! ### C3: ownership scoping of get / update / delete by id -/

/-- Token and state fixtures for the ownership witness: principal `uA`
authenticates while the only stored todo belongs to `uB`. -/
def tokA : TokenStr :=
  .wellFormed (jwtSign secretKey { userId := "uA", iat := 0, exp := 3600 })

def recB : TodoRec :=
  { _id := "t1", userId := "uB", title := "x", description := "y",
    status := "pending", createdAt := 0, updatedAt := 0 }

def stB : ServerState := { users := [], todos := [recB], invalidatedTokens := [] }

/-- C3: a get-by-id, update, or delete request authenticated as `A`
against a store in which every record with that id belongs to `B ≠ A`
returns the 404 NotFound response and leaves the state untouched — the
very same response produced when no record with the id exists at all
(that situation satisfies the ownership hypothesis vacuously), and never
a distinct Forbidden. -/
theorem owner_scoping (st : ServerState) (now : Nat) (h : AuthHeader)
    (A B id : String) (b : TodoBody)
    (hauth : authenticateToken st.invalidatedTokens now h = .ok A)
    (hAB : A ≠ B)
    (hown : ∀ r ∈ st.todos, r._id = id → r.userId = B) :
    getTodoHandler st now h id = .err 404 "Todo not found"
    ∧ putTodoHandler st now h id b = (.err 404 "Todo not found", st)
    ∧ deleteTodoHandler st now h id = (.err 404 "Todo not found", st) := by
  have hfind : st.todos.find? (fun r => r._id == id && r.userId == A) = none := by
    apply List.find?_eq_none.mpr
    intro r hr
    simp only [Bool.and_eq_true, beq_iff_eq, not_and]
    intro h1 h2
    exact hAB (h2.symm.trans (hown r hr h1))
  refine ⟨?_, ?_, ?_⟩ <;>
    simp [getTodoHandler, putTodoHandler, deleteTodoHandler, hauth, hfind]

/-- Witness for C3: principal `uA` targeting the record of `uB` gets the
404 response from all three endpoints, with the state unchanged. -/
theorem owner_scoping_witness :
    getTodoHandler stB 0 (.withToken tokA) "t1" = .err 404 "Todo not found"
    ∧ putTodoHandler stB 0 (.withToken tokA) "t1"
        { title := some "z", description := none, status := none }
      = (.err 404 "Todo not found", stB)
    ∧ deleteTodoHandler stB 0 (.withToken tokA) "t1"
      = (.err 404 "Todo not found", stB) :=
  owner_scoping stB 0 (.withToken tokA) "uA" "uB" "t1"
    { title := some "z", description := none, status := none }
    rfl (by decide) (by decide)

/-! ### C5: the ownership term of the search filter is non-overridable -/

/-- C5: the filter sent to the task store by `GET /todos` always carries
`userId = requesting principal's id`; a caller-supplied `userId` query
term is ignored entirely (the handler never reads it), and consequently
every record returned belongs to the requesting principal. -/
theorem owner_filter_nonoverridable (uid : String) (q : TodosQuery) :
    ((buildFilter uid q).userId = uid)
    ∧ (∀ v : Option String, buildFilter uid { q with userId := v } = buildFilter uid q)
    ∧ (∀ st : ServerState, ∀ now : Nat, ∀ h : AuthHeader,
        authenticateToken st.invalidatedTokens now h = .ok uid →
        ∀ l : List TodoRec, getTodosHandler st now h q = .todoList l →
        ∀ r ∈ l, r.userId = uid) := by
  refine ⟨rfl, fun v => rfl, ?_⟩
  intro st now h hauth l hl r hr
  simp only [getTodosHandler, hauth] at hl
  cases hl
  have hm := (List.mem_filter.mp hr).2
  simp only [matchesFilter, buildFilter, Bool.and_eq_true, beq_iff_eq] at hm
  exact hm.1.1.1

/-- Witness for C5: with an authenticated `u1` and a query that tries to
set `userId` to `u2`, the built filter still scopes to `u1` and the
single returned record belongs to `u1`. -/
theorem owner_filter_nonoverridable_witness :
    ((buildFilter "uA"
        { title := none, description := none, status := none,
          userId := some "uB" }).userId = "uA")
    ∧ (∀ r ∈ [recB],
        r.userId = "uA" → False) ∧
    (∀ l : List TodoRec,
      getTodosHandler stB 0 (.withToken tokA)
        { title := none, description := none, status := none,
          userId := some "uB" } = .todoList l →
      ∀ r ∈ l, r.userId = "uA") := by
  refine ⟨(owner_filter_nonoverridable "uA" _).1, by decide, ?_⟩
  exact (owner_filter_nonoverridable "uA" _).2.2 stB 0 (.withToken tokA) rfl

/-! ### C7: login errors do not reveal whether the username exists -/

/-- C7: a login with an existing username but wrong secret and a login
with a nonexistent username produce the identical error response — the
same 401 status and the same "Invalid credentials" body. -/
theorem login_enumeration_safe (st : ServerState) (now1 now2 : Nat)
    (u1 s1 u2 s2 : String)
    (_hexist : ∃ u ∈ st.users, u.username = u1)
    (hwrong : ∀ u ∈ st.users, u.username = u1 → u.password ≠ s1)
    (hnouser : ∀ u ∈ st.users, u.username ≠ u2) :
    loginHandler st now1 u1 s1 = .err 401 "Invalid credentials"
    ∧ loginHandler st now2 u2 s2 = .err 401 "Invalid credentials"
    ∧ loginHandler st now1 u1 s1 = loginHandler st now2 u2 s2 := by
  have h1 : st.users.find? (fun u => u.username == u1 && u.password == s1) = none := by
    apply List.find?_eq_none.mpr
    intro u hu
    simp only [Bool.and_eq_true, beq_iff_eq, not_and]
    exact hwrong u hu
  have h2 : st.users.find? (fun u => u.username == u2 && u.password == s2) = none := by
    apply List.find?_eq_none.mpr
    intro u hu
    simp only [Bool.and_eq_true, beq_iff_eq, not_and]
    intro ha
    exact absurd ha (hnouser u hu)
  simp [loginHandler, h1, h2]

/-- Witness for C7: the store holds alice with password "pw1"; logging
in as alice with "pw2" and as nonexistent bob give the identical 401
response. -/
theorem login_enumeration_safe_witness :
    loginHandler
        { st0 with users := [{ _id := "u1", username := "alice", password := "pw1" }] }
        0 "alice" "pw2"
      = .err 401 "Invalid credentials"
    ∧ loginHandler
        { st0 with users := [{ _id := "u1", username := "alice", password := "pw1" }] }
        7 "bob" "pw1"
      = .err 401 "Invalid credentials"
    ∧ loginHandler
        { st0 with users := [{ _id := "u1", username := "alice", password := "pw1" }] }
        0 "alice" "pw2"
      = loginHandler
          { st0 with users := [{ _id := "u1", username := "alice", password := "pw1" }] }
          7 "bob" "pw1" :=
  login_enumeration_safe
    { st0 with users := [{ _id := "u1", username := "alice", password := "pw1" }] }
    0 7 "alice" "pw2" "bob" "pw1"
    ⟨{ _id := "u1", username := "alice", password := "pw1" }, by decide, rfl⟩
    (by decide) (by decide)

/-! ### C8: search/filter composition semantics -/

/-- `isPrefOf` decides list-prefix (auxiliary). -/
theorem isPrefOf_iff (p : List Char) : ∀ s : List Char,
    isPrefOf p s = true ↔ p <+: s := by
  induction p with
  | nil => intro s; simp [isPrefOf]
  | cons a as ih =>
    intro s
    cases s with
    | nil => simp [isPrefOf]
    | cons b bs =>
      rw [isPrefOf, Bool.and_eq_true, beq_iff_eq, ih bs, List.cons_prefix_cons]

/-- `containsSub` decides contiguous-sublist containment (auxiliary). -/
theorem containsSub_iff (p : List Char) : ∀ s : List Char,
    containsSub p s = true ↔ p <:+: s := by
  intro s
  induction s with
  | nil =>
    rw [containsSub, List.isEmpty_iff]
    constructor
    · rintro rfl; exact ⟨[], [], rfl⟩
    · rintro ⟨u, v, huv⟩
      rcases List.append_eq_nil.mp huv with ⟨hup, -⟩
      rcases List.append_eq_nil.mp hup with ⟨-, hp⟩
      exact hp
  | cons b bs ih =>
    rw [containsSub, Bool.or_eq_true, isPrefOf_iff, ih]
    constructor
    · rintro (⟨t, ht⟩ | ⟨u, v, huv⟩)
      · exact ⟨[], t, by simpa using ht⟩
      · exact ⟨b :: u, v, by simp [huv]⟩
    · rintro ⟨u, v, huv⟩
      cases u with
      | nil => exact Or.inl ⟨v, by simpa using huv⟩
      | cons c u' =>
        right
        rcases List.cons_eq_cons.mp huv with ⟨-, h2⟩
        exact ⟨u', v, h2⟩

/-- C8: for an authenticated list/search request the result is exactly
the records of the store that satisfy the conjunction of: ownership by
the requesting principal, case-insensitive substring containment of the
title term in the record title (when the term is present), likewise for
the description term, and exact equality for the status term; an absent
(or empty, hence falsy) term imposes no constraint. -/
theorem search_filter_semantics (st : ServerState) (now : Nat) (h : AuthHeader)
    (uid : String) (q : TodosQuery)
    (hauth : authenticateToken st.invalidatedTokens now h = .ok uid) :
    getTodosHandler st now h q
      = .todoList (st.todos.filter (matchesFilter (buildFilter uid q)))
    ∧ ∀ r : TodoRec,
        (r ∈ st.todos.filter (matchesFilter (buildFilter uid q))
          ↔ r ∈ st.todos ∧ r.userId = uid
            ∧ (∀ p, truthy q.title = some p →
                p.toList.map Char.toLower <:+: r.title.toList.map Char.toLower)
            ∧ (∀ p, truthy q.description = some p →
                p.toList.map Char.toLower <:+: r.description.toList.map Char.toLower)
            ∧ (∀ s, truthy q.status = some s → r.status = s)) := by
  refine ⟨by simp [getTodosHandler, hauth], ?_⟩
  intro r
  rw [List.mem_filter]
  simp only [matchesFilter, buildFilter, Bool.and_eq_true, beq_iff_eq]
  cases ht : truthy q.title <;> cases hd : truthy q.description <;>
    cases hs : truthy q.status <;>
    simp [ciMatch, containsSub_iff] <;> tauto

/-- Fixture for the search witness: a record of `u1` titled
"xylophone". -/
def recXyl : TodoRec :=
  { _id := "t9", userId := "u1", title := "xylophone", description := "d",
    status := "pending", createdAt := 0, updatedAt := 0 }

def stXyl : ServerState := { users := [], todos := [recXyl], invalidatedTokens := [] }

def qX : TodosQuery :=
  { title := some "X", description := none, status := none, userId := none }

/-- Witness for C8: authenticated as `u1`, the query `title="X"` matches
the record titled "xylophone" — case-insensitive substring, not exact
match. -/
theorem search_filter_semantics_witness :
    (getTodosHandler stXyl 0 (.withToken tok0) qX
      = .todoList (stXyl.todos.filter (matchesFilter (buildFilter "u1" qX))))
    ∧ (stXyl.todos.filter (matchesFilter (buildFilter "u1" qX)) = [recXyl]) :=
  ⟨(search_filter_semantics stXyl 0 (.withToken tok0) "u1" qX rfl).1, by decide⟩

/-! ### C6: status enum validation on create and update -/

/-- Fixture: a pending record owned by `u1`, the principal of `tok0`. -/
def recP : TodoRec :=
  { _id := "t1", userId := "u1", title := "a", description := "b",
    status := "pending", createdAt := 0, updatedAt := 0 }

def stP : ServerState := { users := [], todos := [recP], invalidatedTokens := [] }

/-- C6 at the failing input: `POST /todos` with status "archived" is
rejected with the validation error and the store is unchanged, but
`PUT /todos/:id` with status "archived" on an owned record performs no
status validation — it stores "archived" and answers 200 with the
updated record, contradicting the claimed ValidationFailed-and-unchanged
behaviour for update (the schema's own enum declares status ∈
{pending, completed}). -/
theorem status_enum_create_vs_update :
    (postTodosHandler stP 5 (.withToken tok0)
        { title := some "a", description := some "b", status := some "archived" } "t2"
      = (.err 400 "Invalid status", stP))
    ∧ (putTodoHandler stP 5 (.withToken tok0) "t1"
        { title := none, description := none, status := some "archived" }
      = (.todoOne { recP with status := "archived", updatedAt := 5 },
         { stP with todos := [{ recP with status := "archived", updatedAt := 5 }] })) := by
  decide

/-! ### C10: default status on create -/

/-- A non-empty supplied string field is truthy (auxiliary). -/
theorem truthy_some_of_ne (s : String) (h : s ≠ "") : truthy (some s) = some s := by
  simp [truthy, String.isEmpty_iff, h]

/-- An absent field is falsy (auxiliary). -/
theorem truthy_none_eq : truthy none = none := rfl

/-- C10: an authenticated create that supplies (truthy) title and
description but omits `status` succeeds, appends a record whose status
is the default "pending", and the default applies only in the absent
case: any supplied in-enum status is stored verbatim. -/
theorem create_default_status (st : ServerState) (now : Nat) (h : AuthHeader)
    (uid ti d newId : String)
    (hauth : authenticateToken st.invalidatedTokens now h = .ok uid)
    (hti : ti ≠ "") (hd : d ≠ "") :
    (postTodosHandler st now h
        { title := some ti, description := some d, status := none } newId
      = (.created { _id := newId, userId := uid, title := ti, description := d,
                    status := "pending", createdAt := now, updatedAt := now },
         { st with todos := st.todos ++
            [{ _id := newId, userId := uid, title := ti, description := d,
               status := "pending", createdAt := now, updatedAt := now }] }))
    ∧ (∀ s ∈ statusEnum,
        postTodosHandler st now h
            { title := some ti, description := some d, status := some s } newId
          = (.created { _id := newId, userId := uid, title := ti, description := d,
                        status := s, createdAt := now, updatedAt := now },
             { st with todos := st.todos ++
                [{ _id := newId, userId := uid, title := ti, description := d,
                   status := s, createdAt := now, updatedAt := now }] })) := by
  have hti' := truthy_some_of_ne ti hti
  have hd' := truthy_some_of_ne d hd
  constructor
  · simp [postTodosHandler, hauth, hti', hd', truthy_none_eq, todoCreate]
  · intro s hs
    simp only [statusEnum, List.mem_cons, List.not_mem_nil, or_false] at hs
    have hs' := truthy_some_of_ne s (by rcases hs with rfl | rfl <;> decide)
    rcases hs with rfl | rfl <;>
      simp [postTodosHandler, hauth, hti', hd', hs', todoCreate, statusEnum]

/-- Witness for C10: concrete create without status yields a "pending"
record; with status "completed" the given value is stored. -/
theorem create_default_status_witness :
    (postTodosHandler stP 5 (.withToken tok0)
        { title := some "a", description := some "b", status := none } "t2"
      = (.created { _id := "t2", userId := "u1", title := "a", description := "b",
                    status := "pending", createdAt := 5, updatedAt := 5 },
         { stP with todos := stP.todos ++
            [{ _id := "t2", userId := "u1", title := "a", description := "b",
               status := "pending", createdAt := 5, updatedAt := 5 }] }))
    ∧ (∀ s ∈ statusEnum,
        postTodosHandler stP 5 (.withToken tok0)
            { title := some "a", description := some "b", status := some s } "t2"
          = (.created { _id := "t2", userId := "u1", title := "a", description := "b",
                        status := s, createdAt := 5, updatedAt := 5 },
             { stP with todos := stP.todos ++
                [{ _id := "t2", userId := "u1", title := "a", description := "b",
                   status := s, createdAt := 5, updatedAt := 5 }] })) :=
  create_default_status stP 5 (.withToken tok0) "u1" "a" "b" "t2" rfl
    (by decide) (by decide)
